import Mathlib

/-!
# The Python validator bridge (`src/pyvalidator.cpp`)

A shallow embedding of the three validator callbacks `init_result`,
`compare_results` and `cleanup_result`.  The callbacks are stateful C++ code; they
are embedded as functions that pass an explicit `World` (interpreter flag, pending
error indicator, heap of path lists, global bindings, event trace) and that return
an `Outcome`: the callback returned to the host, or the process ended with an exit
status, or it died on a `NULL` dereference.  What the embedded scripting runtime
answers to the C API calls is read from an `Env`, which also carries
`PY_MAJOR_VERSION`, so that both sides of every `#if PY_MAJOR_VERSION >= 3` are
embedded.  Reference counts (`Py_DECREF`, `Py_XDECREF`) are not modelled.
-/

namespace PyValidator

/-! ## Data model -/

/-- A script object handed to a C string conversion: a string of the native `str` type of
the build (a byte string in Python 2, a unicode string in Python 3), or anything else. -/
inductive StrObj where
  | str (s : String)
  | other
deriving DecidableEq, Repr

/-- A scripting exception kind as the bridge observes it.  `nameAttr` is what
`PyObject_GetAttrString(exception, "__name__")` yields, `none` for `NULL`.  `exitCode` is
`some c` when the exception is `SystemExit` and the runtime, on printing it, ends the
process with status `c`; it is `none` for every other exception. -/
structure PyExc where
  nameAttr : Option StrObj
  exitCode : Option Int
deriving DecidableEq, Repr

/-- What `PyObject_IsTrue` finds for an object: true, false, or the test itself fails. -/
inductive Truth where
  | truthy
  | falsy
  | failing (e : PyExc)
deriving DecidableEq, Repr

/-- What `PyObject_Str` followed by the C string conversion finds for an object. -/
inductive StrRep where
  | text (s : String)
  | failing (e : PyExc)
deriving DecidableEq, Repr

/-- A script object other than `None`. -/
structure PyValue where
  truth : Truth
  str : StrRep
deriving DecidableEq, Repr

/-- A `PyObject*` as the C++ code tests it: `NULL`, `Py_None`, or any other object. -/
inductive PyObj where
  | null
  | none
  | val (v : PyValue)
deriving DecidableEq, Repr

/-- The host record `RESULT`, with the two fields the bridge reads. -/
structure RESULT where
  name : String
  appid : Int
deriving DecidableEq, Repr

/-- The script-side proxy of a result: name, workload id and output file paths. -/
structure ScriptResultObject where
  name : String
  appid : Int
  paths : List String
deriving DecidableEq, Repr

/-- What a call of a script function does: return `None`, return another object, or raise. -/
inductive CallOutcome where
  | returnsNone
  | returns (v : PyValue)
  | raises (e : PyExc)
deriving DecidableEq, Repr

/-- A script function: its outcome on the proxies it is called with. -/
abbrev Callable := List ScriptResultObject → CallOutcome

/-- A value stored in a script dict: something invocable, or something that
`PyCallable_Check` rejects. -/
inductive Entry where
  | callable (f : Callable)
  | inert

/-- A script dict keyed by strings. -/
abbrev PyDict := List (String × Entry)

/-- An untyped pointer (`void*`): `none` is `NULL`, `some h` a heap handle. -/
abbrev Ptr := Option Nat

/-- The heap of `std::vector<std::string>` objects made with `new`.  `deleted` logs
every `delete`, oldest first. -/
structure Heap where
  next : Nat
  live : List (Nat × List String)
  deleted : List Nat
deriving DecidableEq, Repr

/-- Observable events, in program order. -/
inductive Event where
  | stdout (s : String)
  | stderr (s : String)
  | errPrint (e : PyExc)
  | pyInit
  | pyFinalize
  | processExit (code : Int)
  | typeReady
  | marshal (sym : String) (obj : ScriptResultObject)
  | invoke (fn : String) (args : List ScriptResultObject)
deriving DecidableEq, Repr

/-- The state the callbacks read and write. -/
structure World where
  pythonUp : Bool
  err : Option PyExc
  heap : Heap
  globals : List (String × ScriptResultObject)
  trace : List Event
deriving DecidableEq, Repr

/-- What the surroundings answer: the scripting runtime (modules, dicts, registries),
the C library (`errno`, `strerror`) and the host (`get_output_file_paths`). -/
structure Env where
  /-- the value of `PY_MAJOR_VERSION` the bridge is compiled with -/
  pyMajor : Nat
  /-- whether `PyImport_AddModule("__main__")` yields a module -/
  mainModule : Bool
  /-- the exception left pending when it does not -/
  addModuleError : PyExc
  /-- whether `PyModule_GetDict(main_module)` yields a dict -/
  mainDict : Bool
  errno : Nat
  strerror : Nat → String
  /-- the host's `get_output_file_paths` -/
  outputPaths : RESULT → List String
  /-- the dict of module `boinctools`, as `PyImport_Import` yields it for the name object
  built at lines 82-86 (`PyBytes_FromString` or `PyString_FromString`); `none` when that
  call fails -/
  boinctools : Option PyDict
  /-- the exception left pending when that import fails -/
  importError : PyExc
  /-- the named dicts at script top level (`validators`, `cleaners`) -/
  registries : List (String × PyDict)

/-- How a callback ends: it returns to the host, or the process ends with an exit status,
or the process dies on a `NULL` dereference. -/
inductive Outcome (α : Type) where
  | returned (a : α)
  | exited (code : Int)
  | crashed
deriving DecidableEq, Repr

/-- The exception the C string conversions set when their argument has the wrong type. -/
def typeError : PyExc := { nameAttr := some (.str "TypeError"), exitCode := none }

/-- The constant `ERR_OPENDIR` of the BOINC header `boinc/error_numbers.h` included at
line 26 (a header of BOINC, not of this repository): `#define ERR_OPENDIR -111`. -/
def ERR_OPENDIR : Int := -111

/-! ## Primitive effects -/

/-- Append one event to the trace. -/
def World.log (w : World) (e : Event) : World :=
  { w with trace := w.trace ++ [e] }

/-- The C statement `printf(...)` with the formatted text `s`. -/
def printf (s : String) (w : World) : World := w.log (.stdout s)

/-- The C statement `fprintf(stderr, ...)` with the formatted text `s`. -/
def fprintf_stderr (s : String) (w : World) : World := w.log (.stderr s)

/-- The statements `if(errno) fprintf(stderr,"Reason: %s\n",strerror(errno));`. -/
def report_errno (env : Env) (w : World) : World :=
  if env.errno ≠ 0 then fprintf_stderr ("Reason: " ++ env.strerror env.errno ++ "\n") w else w

/-- The expression `new std::vector<std::string>`: a fresh empty list. -/
def new_paths (w : World) : Nat × World :=
  (w.heap.next,
   { w with heap := { w.heap with next := w.heap.next + 1,
                                  live := (w.heap.next, []) :: w.heap.live } })

/-- Overwrite the list stored at a handle. -/
def Heap.store (hp : Heap) (h : Nat) (xs : List String) : Heap :=
  { hp with live := hp.live.map (fun p => if p.1 = h then (p.1, xs) else p) }

/-- The list stored at a pointer, when the pointer is a live handle. -/
def Heap.deref (hp : Heap) (p : Ptr) : Option (List String) :=
  match p with
  | none => none
  | some h => hp.live.lookup h

/-- The statement `delete (std::vector<std::string>*)data`. -/
def delete_paths (h : Nat) (w : World) : World :=
  { w with heap := { w.heap with live := w.heap.live.filter (fun p => p.1 ≠ h),
                                 deleted := w.heap.deleted ++ [h] } }

/-- The host's `get_output_file_paths(result, *paths)`: fills the list at `paths`. -/
def get_output_file_paths (env : Env) (result : RESULT) (paths : Nat) (w : World) : World :=
  { w with heap := w.heap.store paths (env.outputPaths result) }

/-- The call `PyErr_Occurred()`: the pending exception, `none` for `NULL`. -/
def PyErr_Occurred (w : World) : Option PyExc := w.err

/-- The call `PyErr_Print()`.  For a pending `SystemExit` the runtime prints no traceback,
shuts itself down and ends the process with the exit status of the exception, so the call
never returns: the first component is that status.  For any other pending exception it
prints the traceback and clears the indicator, and the first component is `none`. -/
def PyErr_Print (w : World) : Option Int × World :=
  match w.err with
  | none => (none, w)
  | some e =>
    match e.exitCode with
    | some c => (some c, { w.log (.processExit c) with pythonUp := false })
    | none => (none, { w.log (.errPrint e) with err := none })

/-- The call `PyString_AsString(o)` of the Python 2 build: the characters of a native
`str`; for any other object `NULL` with `TypeError` set. -/
def PyString_AsString (o : StrObj) (w : World) : Option String × World :=
  match o with
  | .str s => (some s, w)
  | .other => (none, { w with err := some typeError })

/-- The call `PyBytes_AsString(o)` of the Python 3 build: the native `str` of that build
is a unicode string, not a `bytes` object, so the call yields `NULL` with `TypeError` set
for it as for any other object that is not `bytes`. -/
def PyBytes_AsString (o : StrObj) (w : World) : Option String × World :=
  match o with
  | .str _ => (none, { w with err := some typeError })
  | .other => (none, { w with err := some typeError })

/-- The C string conversion chosen by `#if PY_MAJOR_VERSION >= 3` (lines 105-109 and
126-130). -/
def as_c_string (pyMajor : Nat) (o : StrObj) (w : World) : Option String × World :=
  if 3 ≤ pyMajor then PyBytes_AsString o w else PyString_AsString o w

/-- The call `PyObject_CallFunction(funct, ...)`: runs the script function on `args`.  A return
gives the returned object; a raise gives `NULL` and sets the error indicator. -/
def PyObject_CallFunction (fn : String) (f : Callable) (args : List ScriptResultObject)
    (w : World) : PyObj × World :=
  let w1 := w.log (.invoke fn args)
  match f args with
  | .returnsNone => (.none, w1)
  | .returns v => (.val v, w1)
  | .raises e => (.null, { w1 with err := some e })

/-- The call `PyObject_IsTrue(o)` on an object: `1`, `0`, or `-1` with the error indicator set. -/
def PyObject_IsTrue (v : PyValue) (w : World) : Int × World :=
  match v.truth with
  | .truthy => (1, w)
  | .falsy => (0, w)
  | .failing e => (-1, { w with err := some e })

/-- The call `PyDict_GetItemString(dict, key)`: the entry, `none` for `NULL`. -/
def PyDict_GetItemString (d : PyDict) (key : String) : Option Entry := d.lookup key

/-- The callable behind an entry that passes `PyCallable_Check`. -/
def Entry.asCallable : Entry → Option Callable
  | .callable f => some f
  | .inert => none

/-- The call `PyImport_Import("boinctools")`: the module dict, or `NULL` with an exception set. -/
def PyImport_Import_boinctools (env : Env) (w : World) : Option PyDict × World :=
  match env.boinctools with
  | some d => (some d, w)
  | none => (none, { w with err := some env.importError })

/-- The call of `PyRun_SimpleString` at line 78: prints the line with name and workload
id of the object bound to `a`. -/
def PyRun_SimpleString_banner (w : World) : World :=
  match w.globals.lookup "a" with
  | some a => printf (a.name ++ " running app number " ++ toString a.appid ++ "\n") w
  | none => w

/-- The call `PyImport_AddModule("__main__")`: the module, or `NULL` with an exception set. -/
def PyImport_AddModule_main (env : Env) (w : World) : Bool × World :=
  if env.mainModule then (true, w) else (false, { w with err := some env.addModuleError })

/-- The event records the call of a script function. -/
def Event.isInvoke : Event → Bool
  | .invoke _ _ => true
  | _ => false

/-- The event records the marshalling of a result into the scripting runtime. -/
def Event.isMarshal : Event → Bool
  | .marshal _ _ => true
  | _ => false

/-- The calls of script functions recorded in a world, oldest first. -/
def World.invocations (w : World) : List Event := w.trace.filter Event.isInvoke

/-- The marshallings recorded in a world, oldest first. -/
def World.marshals (w : World) : List Event := w.trace.filter Event.isMarshal

/-! ## Functions declared in `pyboinc.h` -/

/-- Modelled from the spec: the body of `initialize_python` is not among the sources.
Section 4.1: idempotent, brings the single interpreter up on first use only. -/
def initialize_python (w : World) : World :=
  if w.pythonUp then w else { w.log .pyInit with pythonUp := true }

/-- Modelled from the spec: the body of `finalize_python` is not among the sources.
Section 4.1: tears the runtime down. -/
def finalize_python (w : World) : World :=
  { w.log .pyFinalize with pythonUp := false }

/-- Modelled from the spec: the body of `init_boinc_result` is not among the sources.
It makes the proxy type known to the main module; the spec gives it no other effect. -/
def init_boinc_result (w : World) : World := w.log .typeReady

/-- The proxy of a result with the path list found at `paths`. -/
def proxy_of (result : RESULT) (paths : List String) : ScriptResultObject :=
  { name := result.name, appid := result.appid, paths := paths }

/-- Modelled from the spec: the body of `import_result` is not among the sources.
Section 4.2: binds a proxy of the result under the given symbol at script top level,
overwriting any prior binding, and hands the proxy back. -/
def import_result (sym : String) (paths : Ptr) (result : RESULT) (w : World) :
    ScriptResultObject × World :=
  let obj := proxy_of result ((w.heap.deref paths).getD [])
  (obj, { w.log (.marshal sym obj) with
            globals := (sym, obj) :: w.globals.filter (fun p => p.1 ≠ sym) })

/-- Modelled from the spec: the registry lookup done inside `py_user_code_on_results`,
whose body is not among the sources.  Section 4.3, `resolve(registryName, workloadId)`:
finds the named dict at script top level and the entry keyed by the workload id written
as a string; a missing dict, a missing key or a non-invocable entry is NotFound (`none`). -/
def resolve (env : Env) (registryName : String) (workloadId : Int) : Option Callable :=
  match env.registries.lookup registryName with
  | none => none
  | some d =>
    match PyDict_GetItemString d (toString workloadId) with
    | none => none
    | some e => e.asCallable

/-- Modelled from the spec: the body of `py_user_code_on_results` is not among the
sources.  Section 4.4: resolves the callable for the workload id of `r1` in the named
registry and invokes it with the results and their contexts; NotFound gives `NULL`.
The pending-error indicator changes only when the invoked callable raises. -/
def py_user_code_on_results (env : Env) (num_results : Nat) (r1 : RESULT) (data1 : Ptr)
    (r2 : Option RESULT) (data2 : Ptr) (function_dict_name : String) (w : World) :
    PyObj × World :=
  match resolve env function_dict_name r1.appid with
  | none => (.null, w)
  | some f =>
    let a1 := proxy_of r1 ((w.heap.deref data1).getD [])
    let args :=
      match r2 with
      | some r => if num_results = 2 then [a1, proxy_of r ((w.heap.deref data2).getD [])] else [a1]
      | none => [a1]
    PyObject_CallFunction function_dict_name f args w

/-- Modelled from the spec: the body of `py_boinctools_on_result` is not among the
sources.  Sections 3, 4.4 and 7: resolves the named hook in the auxiliary module and
invokes it with the result when it is present and invocable; an absent module or hook
is a silent no-op giving `NULL`.  The pending-error indicator changes only when the
invoked hook raises. -/
def py_boinctools_on_result (env : Env) (r : RESULT) (function_name : String) (w : World) :
    PyObj × World :=
  match env.boinctools with
  | none => (.null, w)
  | some d =>
    match PyDict_GetItemString d function_name with
    | none => (.null, w)
    | some e =>
      match e.asCallable with
      | none => (.null, w)
      | some f => PyObject_CallFunction function_name f [proxy_of r (env.outputPaths r)] w

/-! ## The three callbacks of `pyvalidator.cpp` -/

/-- Lines 120-135 of `init_result`: print the string form of what the hook returned.
`PyObject_Str` yields a native `str` or fails; a `NULL` from the C string conversion is
printed by `printf` as `(null)`. -/
def print_hook_result (pyMajor : Nat) (pyresult : PyObj) (w : World) : World :=
  match pyresult with
  | .null => w
  | .none => w
  | .val v =>
    match v.str with
    | .text s =>
      let (str_rep_as_str, w) := as_c_string pyMajor (.str s) w
      printf ("Result: " ++ str_rep_as_str.getD "(null)" ++ "\n") w
    | .failing e => { w with err := some e }

/-- The function `int init_result(RESULT& result, void*& data)`.  The returned pair is the
status and the value of `data` when the function returns.  At lines 103-109 the result of
`PyObject_GetAttrString` is passed unchecked to the C string conversion, which reads
through it: a `NULL` there ends in `crashed`. -/
def init_result (env : Env) (result : RESULT) (data : Ptr) (w0 : World) :
    Outcome (Int × Ptr) × World :=
  let retval : Int := 0
  let (paths, w) := new_paths w0
  let w := initialize_python w
  let (main_module, w) := PyImport_AddModule_main env w
  if main_module = false then
    let w := fprintf_stderr "Could not add module __main__\n" w
    let w := report_errno env w
    (.returned (ERR_OPENDIR, data), w)
  else
    let w := init_boinc_result w
    if env.mainDict = false then
      let w := fprintf_stderr "Could not get globals.\n" w
      let w := report_errno env w
      (.returned (ERR_OPENDIR, data), w)
    else
      let w := get_output_file_paths env result paths w
      let data : Ptr := some paths
      let (boincresult, w) := import_result "a" (some paths) result w
      let w := PyRun_SimpleString_banner w
      let w := printf "Marking Process as closed.\n" w
      -- lines 82-86 build `module_name` with `PyBytes_FromString` or `PyString_FromString`;
      -- what the import of that object yields is the answer `env.boinctools`
      let (boinctools_mod, w) := PyImport_Import_boinctools env w
      match boinctools_mod with
      | none => (.returned (retval, data), w)
      | some dict =>
        match PyDict_GetItemString dict "update_process" with
        | none => (.returned (retval, data), w)
        | some funct =>
          match funct.asCallable with
          | none => (.returned (retval, data), w)
          | some f =>
            let w := printf "Calling update_process\n" w
            let (pyresult, w) := PyObject_CallFunction "update_process" f [boincresult] w
            match PyErr_Occurred w with
            | some exception =>
              match exception.nameAttr with
              | none => (.crashed, w)
              | some excpt =>
                let (exc_name, w) := as_c_string env.pyMajor excpt w
                if exc_name = none ∨ exc_name ≠ some "NoSuchProcess" then
                  let w := printf
                    ("Python Exception (" ++ exc_name.getD "NULL" ++ ") happened\n") w
                  match PyErr_Print w with
                  | (some code, w) => (.exited code, w)
                  | (none, w) =>
                    let w := finalize_python w
                    (.exited 1, w)
                else
                  (.returned (retval, data), print_hook_result env.pyMajor pyresult w)
            | none => (.returned (retval, data), print_hook_result env.pyMajor pyresult w)

/-- The function `int compare_results(RESULT& r1, void* _data1, RESULT const& r2, void* _data2,
bool& match)`.  The returned pair is the status and the value written to `match`. -/
def compare_results (env : Env) (r1 : RESULT) (data1 : Ptr) (r2 : RESULT) (data2 : Ptr)
    (w0 : World) : Outcome (Int × Bool) × World :=
  let w := initialize_python w0
  let (retval, w) := py_user_code_on_results env 2 r1 data1 (some r2) data2 "validators" w
  match retval with
  | .none | .null =>
    let w := fprintf_stderr
      ("There was a python error when validating " ++ r1.name ++ ".\nExiting.\n") w
    let w := finalize_python w
    (.exited 1, w)
  | .val v =>
    let (t, w) := PyObject_IsTrue v w
    (.returned (0, decide (t ≠ 0)), w)

/-- The function `int cleanup_result(RESULT const& r, void* data)`. -/
def cleanup_result (env : Env) (r : RESULT) (data : Ptr) (w0 : World) :
    Outcome Int × World :=
  let w := initialize_python w0
  let (retval, w) := py_user_code_on_results env 1 r data none none "cleaners" w
  match retval with
  | .none | .null =>
    let w := fprintf_stderr
      ("There was a python error when cleaning " ++ r.name ++ ".\nExiting.\n") w
    let w := finalize_python w
    (.exited 1, w)
  | .val _ =>
    let (_, w) := py_boinctools_on_result env r "continue_children" w
    match PyErr_Occurred w with
    | some _ =>
      let w := printf "boinctools.continue_children failed\n" w
      match PyErr_Print w with
      | (some code, w) => (.exited code, w)
      | (none, w) =>
        let w := match data with
          | some h => delete_paths h w
          | none => w
        (.returned 1, w)
    | none =>
      let w := match data with
        | some h => delete_paths h w
        | none => w
      (.returned 0, w)

/-! ## Stages of the callbacks, named for the proofs -/

/-- The fatal ending of `compare_results` (lines 155-158). -/
def compare_fatal (r1 : RESULT) (w : World) : Outcome (Int × Bool) × World :=
  (.exited 1, finalize_python (fprintf_stderr
      ("There was a python error when validating " ++ r1.name ++ ".\nExiting.\n") w))

/-- The fatal ending of `cleanup_result` (lines 184-187). -/
def cleanup_fatal (r : RESULT) (w : World) : Outcome Int × World :=
  (.exited 1, finalize_python (fprintf_stderr
      ("There was a python error when cleaning " ++ r.name ++ ".\nExiting.\n") w))

/-- The statements `if(data != NULL) { delete ...; data = NULL; }`. -/
def free_context (data : Ptr) (w : World) : World :=
  match data with
  | some h => delete_paths h w
  | none => w

/-- The world of `init_result` on reaching line 87, when the main module and its dict
were obtained. -/
def init_head (env : Env) (result : RESULT) (w0 : World) : World :=
  printf "Marking Process as closed.\n"
    (PyRun_SimpleString_banner
      (import_result "a" (some w0.heap.next) result
        (get_output_file_paths env result w0.heap.next
          (init_boinc_result (initialize_python (new_paths w0).2)))).2)

/-- Lines 194-213 of `cleanup_result`, from the world in which line 194 is reached. -/
def cleanup_tail (data : Ptr) (w : World) : Outcome Int × World :=
  match w.err with
  | some _ =>
    match PyErr_Print (printf "boinctools.continue_children failed\n" w) with
    | (some code, w1) => (.exited code, w1)
    | (none, w1) => (.returned 1, free_context data w1)
  | none => (.returned 0, free_context data w)

/-- Lines 111-117 of `init_result`: the fatal handling of a hook exception. -/
def init_fatal (exc_name : Option String) (w : World) : Outcome (Int × Ptr) × World :=
  match PyErr_Print (printf ("Python Exception (" ++ exc_name.getD "NULL" ++ ") happened\n") w) with
  | (some code, w1) => (.exited code, w1)
  | (none, w1) => (.exited 1, finalize_python w1)

/-- Lines 101-141 of `init_result`: what follows the call of the hook. -/
def init_after_call (pyMajor : Nat) (paths : Nat) (pyresult : PyObj) (w : World) :
    Outcome (Int × Ptr) × World :=
  match w.err with
  | some exception =>
    match exception.nameAttr with
    | none => (.crashed, w)
    | some excpt =>
      if (as_c_string pyMajor excpt w).1 = none ∨
          (as_c_string pyMajor excpt w).1 ≠ some "NoSuchProcess" then
        init_fatal (as_c_string pyMajor excpt w).1 (as_c_string pyMajor excpt w).2
      else
        (.returned (0, some paths),
          print_hook_result pyMajor pyresult (as_c_string pyMajor excpt w).2)
  | none => (.returned (0, some paths), print_hook_result pyMajor pyresult w)

/-- Lines 87-141 of `init_result`, from the world at line 87. -/
def init_hook_stage (env : Env) (boincresult : ScriptResultObject) (paths : Nat) (w : World) :
    Outcome (Int × Ptr) × World :=
  match env.boinctools with
  | none => (.returned (0, some paths), { w with err := some env.importError })
  | some dict =>
    match PyDict_GetItemString dict "update_process" with
    | none => (.returned (0, some paths), w)
    | some .inert => (.returned (0, some paths), w)
    | some (.callable f) =>
      init_after_call env.pyMajor paths
        (PyObject_CallFunction "update_process" f [boincresult]
          (printf "Calling update_process\n" w)).1
        (PyObject_CallFunction "update_process" f [boincresult]
          (printf "Calling update_process\n" w)).2

/-- The proxy `init_result` binds to `a` and passes to the hook. -/
def init_proxy (env : Env) (result : RESULT) (w0 : World) : ScriptResultObject :=
  (import_result "a" (some w0.heap.next) result
    (get_output_file_paths env result w0.heap.next
      (init_boinc_result (initialize_python (new_paths w0).2)))).1

/-! ## Sample inputs -/

/-- A world before any callback ran. -/
def world0 : World :=
  { pythonUp := false, err := none, heap := { next := 1, live := [], deleted := [] },
    globals := [], trace := [] }

/-- The exception kind the init hook may raise harmlessly. -/
def noSuchProcess : PyExc := { nameAttr := some (.str "NoSuchProcess"), exitCode := none }

/-- The exception of a failed import. -/
def importError : PyExc := { nameAttr := some (.str "ImportError"), exitCode := none }

/-- The exception raised by `sys.exit(c)`. -/
def systemExit (c : Int) : PyExc := { nameAttr := some (.str "SystemExit"), exitCode := some c }

/-- An exception kind without a `__name__` attribute. -/
def nameless : PyExc := { nameAttr := none, exitCode := none }

/-- A plain true object. -/
def pyTrue : PyValue := { truth := .truthy, str := .text "True" }

/-- A plain false object. -/
def pyFalse : PyValue := { truth := .falsy, str := .text "False" }

/-- The validator of the spec example: true exactly when both result names are equal. -/
def sameName : Callable := fun args =>
  match args with
  | [a, b] => if a.name = b.name then .returns pyTrue else .returns pyFalse
  | _ => .raises typeError

/-- A deployment with a validator and a cleaner for workload 42 and both hooks. -/
def env42 : Env :=
  { pyMajor := 2, mainModule := true, addModuleError := importError, mainDict := true,
    errno := 0, strerror := fun _ => "", outputPaths := fun r => [r.name ++ "_0"],
    boinctools := some [("update_process", .callable (fun _ => .returnsNone)),
                        ("continue_children", .callable (fun _ => .returnsNone))],
    importError := importError,
    registries := [("validators", [("42", .callable sameName)]),
                   ("cleaners", [("42", .callable (fun _ => .returns pyTrue))])] }

/-- The deployment `env42` with an `update_process` hook that raises `NoSuchProcess`;
`continue_children` still returns normally. -/
def envSwallow : Env :=
  { env42 with
    boinctools := some [("update_process", .callable (fun _ => .raises noSuchProcess)),
                        ("continue_children", .callable (fun _ => .returnsNone))] }

/-- The deployment `env42` in a runtime where `__main__` cannot be obtained. -/
def envNoMain : Env := { env42 with mainModule := false }

/-- The deployment `env42` without the auxiliary module. -/
def envNoTools : Env := { env42 with boinctools := none }

/-- The deployment `env42` without the auxiliary module, in a runtime where `__main__`
cannot be obtained. -/
def envNoMainNoTools : Env := { env42 with mainModule := false, boinctools := none }

/-- The deployment `env42` with `update_process` replaced by a hook that raises `e`. -/
def envInitRaises (pyMajor : Nat) (e : PyExc) : Env :=
  { env42 with
    pyMajor := pyMajor
    boinctools := some [("update_process", .callable (fun _ => .raises e)),
                        ("continue_children", .callable (fun _ => .returnsNone))] }

/-- The deployment `env42` with `continue_children` replaced by a hook with outcome `o`. -/
def envCleanupHook (o : CallOutcome) : Env :=
  { env42 with
    boinctools := some [("update_process", .callable (fun _ => .returnsNone)),
                        ("continue_children", .callable (fun _ => o))] }

/-- The result of the spec example. -/
def wu : RESULT := { name := "wu", appid := 42 }

/-! ## Facts about the stages -/

lemma compare_results_cases (env : Env) (r1 r2 : RESULT) (data1 data2 : Ptr) (w : World) :
    compare_results env r1 data1 r2 data2 w =
      match py_user_code_on_results env 2 r1 data1 (some r2) data2 "validators"
          (initialize_python w) with
      | (.none, w1) => compare_fatal r1 w1
      | (.null, w1) => compare_fatal r1 w1
      | (.val v, w1) =>
        (.returned (0, decide ((PyObject_IsTrue v w1).1 ≠ 0)), (PyObject_IsTrue v w1).2) := by
  simp only [compare_results, compare_fatal]
  generalize py_user_code_on_results env 2 r1 data1 (some r2) data2 "validators"
    (initialize_python w) = d
  obtain ⟨o, w1⟩ := d
  cases o <;> rfl

lemma cleanup_result_cases (env : Env) (r : RESULT) (data : Ptr) (w : World) :
    cleanup_result env r data w =
      match py_user_code_on_results env 1 r data none none "cleaners"
          (initialize_python w) with
      | (.none, w1) => cleanup_fatal r w1
      | (.null, w1) => cleanup_fatal r w1
      | (.val _, w1) =>
        cleanup_tail data (py_boinctools_on_result env r "continue_children" w1).2 := by
  simp only [cleanup_result, cleanup_fatal, PyErr_Occurred, cleanup_tail, free_context]
  generalize py_user_code_on_results env 1 r data none none "cleaners"
    (initialize_python w) = d
  obtain ⟨o, w1⟩ := d
  cases o
  · rfl
  · rfl
  · rfl

lemma initialize_python_heap (w : World) : (initialize_python w).heap = w.heap := by
  unfold initialize_python World.log
  split <;> rfl

lemma PyObject_CallFunction_heap (fn : String) (f : Callable) (args : List ScriptResultObject)
    (w : World) : (PyObject_CallFunction fn f args w).2.heap = w.heap := by
  unfold PyObject_CallFunction World.log
  cases f args <;> rfl

lemma py_user_code_on_results_heap (env : Env) (n : Nat) (r1 : RESULT) (data1 : Ptr)
    (r2 : Option RESULT) (data2 : Ptr) (nm : String) (w : World) :
    (py_user_code_on_results env n r1 data1 r2 data2 nm w).2.heap = w.heap := by
  unfold py_user_code_on_results
  cases resolve env nm r1.appid with
  | none => rfl
  | some f => exact PyObject_CallFunction_heap _ _ _ _

lemma py_boinctools_on_result_heap (env : Env) (r : RESULT) (nm : String) (w : World) :
    (py_boinctools_on_result env r nm w).2.heap = w.heap := by
  unfold py_boinctools_on_result
  cases env.boinctools with
  | none => rfl
  | some d =>
    simp only
    cases PyDict_GetItemString d nm with
    | none => rfl
    | some e =>
      cases e with
      | inert => rfl
      | callable f => exact PyObject_CallFunction_heap _ _ _ _

lemma PyErr_Print_heap (w : World) : (PyErr_Print w).2.heap = w.heap := by
  unfold PyErr_Print World.log
  split
  · rfl
  · split <;> rfl

lemma lookup_filter_ne (h : Nat) (l : List (Nat × List String)) :
    (l.filter (fun p => p.1 ≠ h)).lookup h = none := by
  induction l with
  | nil => rfl
  | cons p l ih =>
    obtain ⟨k, x⟩ := p
    by_cases hk : k = h
    · have hf : List.filter (fun p => decide (p.1 ≠ h)) ((k, x) :: l) =
          List.filter (fun p => decide (p.1 ≠ h)) l := by
        simp [List.filter, hk]
      rw [hf]
      exact ih
    · have hf : List.filter (fun p => decide (p.1 ≠ h)) ((k, x) :: l) =
          (k, x) :: List.filter (fun p => decide (p.1 ≠ h)) l := by
        simp [List.filter, hk]
      have hb : (h == k) = false := by
        simp only [beq_eq_false_iff_ne, ne_eq]
        exact fun e => hk e.symm
      rw [hf, List.lookup_cons, hb]
      exact ih

lemma deref_free_context (h : Nat) (w : World) :
    (free_context (some h) w).heap.deref (some h) = none := by
  simp only [free_context, delete_paths, Heap.deref]
  exact lookup_filter_ne h w.heap.live

lemma PyObject_CallFunction_val_err (fn : String) (f : Callable)
    (args : List ScriptResultObject) (w : World) (v : PyValue)
    (h : (PyObject_CallFunction fn f args w).1 = .val v) :
    (PyObject_CallFunction fn f args w).2.err = w.err := by
  revert h
  unfold PyObject_CallFunction World.log
  cases f args <;> simp

lemma py_user_code_on_results_val_err (env : Env) (n : Nat) (r1 : RESULT) (data1 : Ptr)
    (r2 : Option RESULT) (data2 : Ptr) (nm : String) (w : World) (v : PyValue)
    (h : (py_user_code_on_results env n r1 data1 r2 data2 nm w).1 = .val v) :
    (py_user_code_on_results env n r1 data1 r2 data2 nm w).2.err = w.err := by
  revert h
  unfold py_user_code_on_results
  cases resolve env nm r1.appid with
  | none => simp
  | some f => exact PyObject_CallFunction_val_err _ _ _ _ v

lemma init_result_no_main (env : Env) (result : RESULT) (data : Ptr) (w : World)
    (hmain : env.mainModule = false) :
    init_result env result data w =
      (.returned (ERR_OPENDIR, data),
        report_errno env (fprintf_stderr "Could not add module __main__\n"
          { initialize_python (new_paths w).2 with err := some env.addModuleError })) := by
  simp [init_result, PyImport_AddModule_main, hmain]

lemma init_result_no_dict (env : Env) (result : RESULT) (data : Ptr) (w : World)
    (hmain : env.mainModule = true) (hdict : env.mainDict = false) :
    init_result env result data w =
      (.returned (ERR_OPENDIR, data),
        report_errno env (fprintf_stderr "Could not get globals.\n"
          (init_boinc_result (initialize_python (new_paths w).2)))) := by
  simp [init_result, PyImport_AddModule_main, hmain, hdict]

lemma init_result_hook (env : Env) (result : RESULT) (data : Ptr) (w : World)
    (hmain : env.mainModule = true) (hdict : env.mainDict = true) :
    init_result env result data w =
      init_hook_stage env (init_proxy env result w) w.heap.next (init_head env result w) := by
  simp only [init_result, PyImport_AddModule_main, hmain, hdict, init_hook_stage, init_head,
    PyImport_Import_boinctools, init_after_call, init_fatal, PyErr_Occurred, init_proxy]
  cases env.boinctools with
  | none => rfl
  | some d =>
    simp only
    cases PyDict_GetItemString d "update_process" with
    | none => rfl
    | some e =>
      cases e with
      | inert => rfl
      | callable f => rfl

lemma init_head_heap (env : Env) (result : RESULT) (w : World) :
    (init_head env result w).heap =
      { next := w.heap.next + 1,
        live := (w.heap.next, env.outputPaths result) ::
          w.heap.live.map (fun p => if p.1 = w.heap.next then (p.1, env.outputPaths result) else p),
        deleted := w.heap.deleted } := by
  unfold init_head PyRun_SimpleString_banner printf import_result get_output_file_paths
    init_boinc_result
  simp [World.log, initialize_python_heap, new_paths, Heap.store]

lemma init_head_deref (env : Env) (result : RESULT) (w : World) :
    (init_head env result w).heap.deref (some w.heap.next) = some (env.outputPaths result) := by
  rw [init_head_heap]
  simp [Heap.deref, List.lookup]

lemma init_proxy_eq (env : Env) (result : RESULT) (w : World) :
    init_proxy env result w = proxy_of result (env.outputPaths result) := by
  unfold init_proxy import_result get_output_file_paths init_boinc_result
  simp [World.log, initialize_python_heap, new_paths, Heap.store, Heap.deref, List.lookup]

lemma initialize_python_err (w : World) : (initialize_python w).err = w.err := by
  unfold initialize_python World.log
  split <;> rfl

lemma initialize_python_up (w : World) : (initialize_python w).pythonUp = true := by
  unfold initialize_python World.log
  split
  · assumption
  · rfl

lemma init_head_err (env : Env) (result : RESULT) (w : World) :
    (init_head env result w).err = w.err := by
  unfold init_head PyRun_SimpleString_banner printf import_result get_output_file_paths
    init_boinc_result
  simp [World.log, initialize_python_err, new_paths]

lemma init_head_up (env : Env) (result : RESULT) (w : World) :
    (init_head env result w).pythonUp = true := by
  unfold init_head PyRun_SimpleString_banner printf import_result get_output_file_paths
    init_boinc_result
  simp [World.log, initialize_python_up, new_paths]

lemma initialize_python_invocations (w : World) :
    (initialize_python w).invocations = w.invocations := by
  unfold initialize_python World.log World.invocations
  split
  · rfl
  · simp [List.filter_append, Event.isInvoke]

lemma initialize_python_marshals (w : World) :
    (initialize_python w).marshals = w.marshals := by
  unfold initialize_python World.log World.marshals
  split
  · rfl
  · simp [List.filter_append, Event.isMarshal]

lemma init_head_invocations (env : Env) (result : RESULT) (w : World) :
    (init_head env result w).invocations = w.invocations := by
  have h := initialize_python_invocations (new_paths w).2
  unfold World.invocations at h ⊢
  unfold init_head PyRun_SimpleString_banner printf import_result get_output_file_paths
    init_boinc_result
  simp [World.log, new_paths, List.filter_append, Event.isInvoke] at h ⊢
  exact h

lemma init_result_early_return (env : Env) (result : RESULT) (data : Ptr)
    (w : World) (hfail : env.mainModule = false ∨ env.mainDict = false) :
    (init_result env result data w).1 = .returned (ERR_OPENDIR, data) := by
  by_cases hmain : env.mainModule = false
  · rw [init_result_no_main env result data w hmain]
  · have hmain2 : env.mainModule = true := by simpa using hmain
    have hdict : env.mainDict = false := by
      rcases hfail with h | h
      · exact absurd h hmain
      · exact h
    rw [init_result_no_dict env result data w hmain2 hdict]

lemma as_c_string_heap (pyMajor : Nat) (o : StrObj) (w : World) :
    (as_c_string pyMajor o w).2.heap = w.heap := by
  unfold as_c_string PyBytes_AsString PyString_AsString
  split <;> cases o <;> rfl

lemma as_c_string_up (pyMajor : Nat) (o : StrObj) (w : World) :
    (as_c_string pyMajor o w).2.pythonUp = w.pythonUp := by
  unfold as_c_string PyBytes_AsString PyString_AsString
  split <;> cases o <;> rfl

lemma as_c_string_trace (pyMajor : Nat) (o : StrObj) (w : World) :
    (as_c_string pyMajor o w).2.trace = w.trace := by
  unfold as_c_string PyBytes_AsString PyString_AsString
  split <;> cases o <;> rfl

lemma as_c_string_py2 (pyMajor : Nat) (s : String) (w : World) (hpy : pyMajor < 3) :
    as_c_string pyMajor (.str s) w = (some s, w) := by
  have h : ¬ 3 ≤ pyMajor := by omega
  simp [as_c_string, PyString_AsString, h]

lemma as_c_string_other (pyMajor : Nat) (w : World) :
    as_c_string pyMajor .other w = (none, { w with err := some typeError }) := by
  unfold as_c_string PyBytes_AsString PyString_AsString
  split <;> rfl

lemma as_c_string_py3 (pyMajor : Nat) (o : StrObj) (w : World) (hpy : 3 ≤ pyMajor) :
    as_c_string pyMajor o w = (none, { w with err := some typeError }) := by
  simp only [as_c_string, PyBytes_AsString, hpy, if_true]
  cases o <;> rfl

lemma print_hook_result_heap (pyMajor : Nat) (o : PyObj) (w : World) :
    (print_hook_result pyMajor o w).heap = w.heap := by
  unfold print_hook_result
  cases o with
  | null => rfl
  | none => rfl
  | val v =>
    obtain ⟨t, sr⟩ := v
    cases sr with
    | failing e => rfl
    | text s => simp [printf, World.log, as_c_string_heap]

lemma print_hook_result_up (pyMajor : Nat) (o : PyObj) (w : World) :
    (print_hook_result pyMajor o w).pythonUp = w.pythonUp := by
  unfold print_hook_result
  cases o with
  | null => rfl
  | none => rfl
  | val v =>
    obtain ⟨t, sr⟩ := v
    cases sr with
    | failing e => rfl
    | text s => simp [printf, World.log, as_c_string_up]

lemma init_fatal_heap (nm : Option String) (w : World) :
    (init_fatal nm w).2.heap = w.heap := by
  have h := PyErr_Print_heap (printf ("Python Exception (" ++ nm.getD "NULL" ++ ") happened\n") w)
  unfold init_fatal
  generalize PyErr_Print (printf ("Python Exception (" ++ nm.getD "NULL" ++ ") happened\n") w)
    = q at h ⊢
  obtain ⟨c, w1⟩ := q
  cases c <;> simpa [finalize_python, printf, World.log] using h

lemma init_fatal_outcome (nm : Option String) (w : World) :
    ∃ c, (init_fatal nm w).1 = .exited c := by
  unfold init_fatal
  generalize PyErr_Print (printf ("Python Exception (" ++ nm.getD "NULL" ++ ") happened\n") w) = q
  obtain ⟨c, w1⟩ := q
  cases c with
  | none => exact ⟨1, rfl⟩
  | some c => exact ⟨c, rfl⟩

lemma init_after_call_heap (pyMajor paths : Nat) (o : PyObj) (w : World) :
    (init_after_call pyMajor paths o w).2.heap = w.heap := by
  unfold init_after_call
  cases w.err with
  | none => exact print_hook_result_heap _ _ _
  | some x =>
    simp only
    cases x.nameAttr with
    | none => rfl
    | some excpt =>
      simp only
      split
      · rw [init_fatal_heap, as_c_string_heap]
      · simp only
        rw [print_hook_result_heap, as_c_string_heap]

lemma init_after_call_outcome (pyMajor paths : Nat) (o : PyObj) (w : World) :
    (init_after_call pyMajor paths o w).1 = .returned (0, some paths) ∨
    (∃ c, (init_after_call pyMajor paths o w).1 = .exited c) ∨
    (init_after_call pyMajor paths o w).1 = .crashed := by
  unfold init_after_call
  cases w.err with
  | none => exact Or.inl rfl
  | some x =>
    simp only
    cases x.nameAttr with
    | none => exact Or.inr (Or.inr rfl)
    | some excpt =>
      simp only
      split
      · exact Or.inr (Or.inl (init_fatal_outcome _ _))
      · exact Or.inl rfl

lemma init_hook_stage_heap (env : Env) (b : ScriptResultObject) (paths : Nat) (w : World) :
    (init_hook_stage env b paths w).2.heap = w.heap := by
  unfold init_hook_stage
  cases env.boinctools with
  | none => rfl
  | some d =>
    simp only
    cases PyDict_GetItemString d "update_process" with
    | none => rfl
    | some e =>
      cases e with
      | inert => rfl
      | callable f =>
        simp only
        rw [init_after_call_heap, PyObject_CallFunction_heap]
        rfl

lemma init_hook_stage_outcome (env : Env) (b : ScriptResultObject) (paths : Nat) (w : World) :
    (init_hook_stage env b paths w).1 = .returned (0, some paths) ∨
    (∃ c, (init_hook_stage env b paths w).1 = .exited c) ∨
    (init_hook_stage env b paths w).1 = .crashed := by
  unfold init_hook_stage
  cases env.boinctools with
  | none => exact Or.inl rfl
  | some d =>
    simp only
    cases PyDict_GetItemString d "update_process" with
    | none => exact Or.inl rfl
    | some e =>
      cases e with
      | inert => exact Or.inl rfl
      | callable f => exact init_after_call_outcome _ _ _ _

/-- The hook stage of `init_result` when the hook is called and raises `e`: the indicator
holds `e` and what follows is `init_after_call`. -/
lemma init_result_hook_raises (env : Env) (result : RESULT) (data : Ptr) (w : World)
    (d : PyDict) (f : Callable) (e : PyExc)
    (hmain : env.mainModule = true) (hdict : env.mainDict = true)
    (hmod : env.boinctools = some d)
    (hfn : PyDict_GetItemString d "update_process" = some (.callable f))
    (hraise : f [proxy_of result (env.outputPaths result)] = .raises e) :
    init_result env result data w =
      init_after_call env.pyMajor w.heap.next .null
        { (init_head env result w) with
          trace := (init_head env result w).trace ++
            [.stdout "Calling update_process\n",
             .invoke "update_process" [proxy_of result (env.outputPaths result)]],
          err := some e } := by
  rw [init_result_hook env result data w hmain hdict]
  unfold init_hook_stage
  simp [hmod, hfn, init_proxy_eq, PyObject_CallFunction, hraise, printf, World.log]

/-- C1: whenever the "validators" dispatch for `r1` yields a usable value `v` (an object
that is neither `NULL` nor `None`), `compare_results` returns status 0 and writes to
`match` the truth of `v`: true for a truthy `v`, false for a falsy `v` (the written value
is the C conversion to `bool` of what `PyObject_IsTrue` answers). -/
theorem compare_results_match_is_truthiness (env : Env) (r1 r2 : RESULT) (data1 data2 : Ptr)
    (w : World) (v : PyValue)
    (h : (py_user_code_on_results env 2 r1 data1 (some r2) data2 "validators"
            (initialize_python w)).1 = .val v) :
    ∃ m : Bool, (compare_results env r1 data1 r2 data2 w).1 = .returned (0, m) ∧
      m = decide ((PyObject_IsTrue v (py_user_code_on_results env 2 r1 data1 (some r2) data2
            "validators" (initialize_python w)).2).1 ≠ 0) ∧
      (v.truth = .truthy → m = true) ∧ (v.truth = .falsy → m = false) := by
  rw [compare_results_cases]
  generalize py_user_code_on_results env 2 r1 data1 (some r2) data2 "validators"
    (initialize_python w) = d at h ⊢
  obtain ⟨o, w1⟩ := d
  simp only at h
  subst h
  refine ⟨_, rfl, rfl, ?_, ?_⟩ <;> intro ht <;> simp [PyObject_IsTrue, ht]

/-- The spec example: workload 42 is validated by a function that is true when both
names are equal, and two results named `wu` match. -/
theorem compare_results_match_is_truthiness_witness :
    (py_user_code_on_results env42 2 wu none (some wu) none "validators"
        (initialize_python world0)).1 = .val pyTrue ∧
    ∃ m : Bool, (compare_results env42 wu none wu none world0).1 = .returned (0, m) ∧
      m = decide ((PyObject_IsTrue pyTrue (py_user_code_on_results env42 2 wu none (some wu) none
            "validators" (initialize_python world0)).2).1 ≠ 0) ∧
      (pyTrue.truth = .truthy → m = true) ∧ (pyTrue.truth = .falsy → m = false) :=
  ⟨by decide, compare_results_match_is_truthiness env42 wu wu none none world0 pyTrue (by decide)⟩

/-- C2: `compare_results` ends the process with exit status 1, after the diagnostic
naming `r1` and the interpreter teardown, exactly when the "validators" dispatch yields
`NULL` or `None`; exactly then it returns no status and no match value; and a workload id
with no invocable entry in "validators" always ends the process. -/
theorem compare_results_fatal_iff_unusable (env : Env) (r1 r2 : RESULT) (data1 data2 : Ptr)
    (w : World) :
    let d := py_user_code_on_results env 2 r1 data1 (some r2) data2 "validators"
      (initialize_python w)
    let out := compare_results env r1 data1 r2 data2 w
    ((d.1 = .null ∨ d.1 = .none) ↔ out.1 = .exited 1) ∧
    ((d.1 = .null ∨ d.1 = .none) ↔ ∀ sm, out.1 ≠ .returned sm) ∧
    (∀ c, out.1 = .exited c → c = 1 ∧ out.2.pythonUp = false ∧
      out.2.trace = d.2.trace ++
        [.stderr ("There was a python error when validating " ++ r1.name ++ ".\nExiting.\n"),
         .pyFinalize]) ∧
    (resolve env "validators" r1.appid = none → out.1 = .exited 1) := by
  intro d out
  have hres : resolve env "validators" r1.appid = none → d.1 = .null := by
    intro hr
    simp [d, py_user_code_on_results, hr]
  have hd : d = py_user_code_on_results env 2 r1 data1 (some r2) data2 "validators"
      (initialize_python w) := rfl
  have hout : out = compare_results env r1 data1 r2 data2 w := rfl
  rw [compare_results_cases, ← hd] at hout
  clear_value d out
  clear hd
  subst hout
  obtain ⟨o, w1⟩ := d
  cases o <;>
    simp [compare_fatal, finalize_python, fprintf_stderr, World.log] at hres ⊢
  exact hres

/-- C3 as stated fails: after `init_result`, the cleaner for workload 42 yields a usable
value and `continue_children` raises `SystemExit` with status 3; `cleanup_result` then
returns no status, because `PyErr_Print` at line 197 ends the process with status 3. -/
theorem cleanup_result_hook_SystemExit_ends_process :
    (py_user_code_on_results (envCleanupHook (.raises (systemExit 3))) 1 wu (some 1) none none
        "cleaners" (initialize_python
          (init_result (envCleanupHook (.raises (systemExit 3))) wu none world0).2)).1
      = .val pyTrue ∧
    (cleanup_result (envCleanupHook (.raises (systemExit 3))) wu (some 1)
        (init_result (envCleanupHook (.raises (systemExit 3))) wu none world0).2).1
      = .exited 3 ∧
    ∀ st, (cleanup_result (envCleanupHook (.raises (systemExit 3))) wu (some 1)
        (init_result (envCleanupHook (.raises (systemExit 3))) wu none world0).2).1
      ≠ .returned st := by
  refine ⟨by decide, by decide, ?_⟩
  intro st
  have h : (cleanup_result (envCleanupHook (.raises (systemExit 3))) wu (some 1)
        (init_result (envCleanupHook (.raises (systemExit 3))) wu none world0).2).1
      = .exited 3 := by decide
  rw [h]
  simp

/-- C3, amended: in every `cleanup_result` call in which the "cleaners" callable yields a
usable value and `continue_children` is called, the call returns status 1 when the hook
raises an exception other than `SystemExit`; when the hook raises `SystemExit`, the
process ends inside `PyErr_Print` with the exit status of that exception; and when the
hook returns without raising and no error was pending on entry to `cleanup_result`, the
call returns status 0. -/
theorem cleanup_result_status_by_hook (env : Env) (r : RESULT) (data : Ptr) (w : World)
    (v : PyValue) (d : PyDict) (f : Callable)
    (hv : (py_user_code_on_results env 1 r data none none "cleaners"
            (initialize_python w)).1 = .val v)
    (hmod : env.boinctools = some d)
    (hfn : PyDict_GetItemString d "continue_children" = some (.callable f)) :
    (∀ e, f [proxy_of r (env.outputPaths r)] = .raises e → e.exitCode = none →
      (cleanup_result env r data w).1 = .returned 1) ∧
    (∀ e c, f [proxy_of r (env.outputPaths r)] = .raises e → e.exitCode = some c →
      (cleanup_result env r data w).1 = .exited c) ∧
    (w.err = none →
      (f [proxy_of r (env.outputPaths r)] = .returnsNone ∨
        ∃ v2, f [proxy_of r (env.outputPaths r)] = .returns v2) →
      (cleanup_result env r data w).1 = .returned 0) := by
  have h1 := py_user_code_on_results_val_err env 1 r data none none "cleaners"
    (initialize_python w) v hv
  rw [initialize_python_err] at h1
  rw [cleanup_result_cases]
  generalize py_user_code_on_results env 1 r data none none "cleaners"
    (initialize_python w) = dd at h1 hv ⊢
  obtain ⟨o, w1⟩ := dd
  simp only at h1 hv
  subst hv
  simp only
  unfold py_boinctools_on_result
  simp only [hmod, hfn, Entry.asCallable, PyObject_CallFunction, World.log]
  refine ⟨?_, ?_, ?_⟩
  · intro e he hx
    simp [he, cleanup_tail, PyErr_Print, printf, World.log, hx]
  · intro e c he hx
    simp [he, cleanup_tail, PyErr_Print, printf, World.log, hx]
  · intro hw hret
    rw [hw] at h1
    rcases hret with he | ⟨v2, he⟩
    · simp [he, cleanup_tail, h1]
    · simp [he, cleanup_tail, h1]

/-- After `init_result`, a `continue_children` hook that raises `TypeError` gives status 1. -/
theorem cleanup_result_status_by_hook_witness :
    (py_user_code_on_results (envCleanupHook (.raises typeError)) 1 wu (some 1) none none
        "cleaners" (initialize_python
          (init_result (envCleanupHook (.raises typeError)) wu none world0).2)).1
      = .val pyTrue ∧
    (cleanup_result (envCleanupHook (.raises typeError)) wu (some 1)
        (init_result (envCleanupHook (.raises typeError)) wu none world0).2).1 = .returned 1 :=
  ⟨by decide,
   (cleanup_result_status_by_hook (envCleanupHook (.raises typeError)) wu (some 1)
      (init_result (envCleanupHook (.raises typeError)) wu none world0).2 pyTrue
      [("update_process", .callable (fun _ => .returnsNone)),
       ("continue_children", .callable (fun _ => .raises typeError))]
      (fun _ => .raises typeError) (by decide) rfl rfl).1 typeError rfl rfl⟩

/-- C4: a `cleanup_result` call that returns, made with a context handle that is live
(its list is on the heap), performs exactly one `delete`, of that handle, before it
returns, whether `continue_children` failed (status 1) or not (status 0); afterwards the
handle is no longer live and the delete log grew by that one entry. -/
theorem cleanup_result_frees_context_once (env : Env) (r : RESULT) (data : Ptr) (w : World)
    (xs : List String) (st : Int)
    (hlive : w.heap.deref data = some xs)
    (hret : (cleanup_result env r data w).1 = .returned st) :
    ∃ h, data = some h ∧ (st = 0 ∨ st = 1) ∧
      (cleanup_result env r data w).2.heap.deleted = w.heap.deleted ++ [h] ∧
      (cleanup_result env r data w).2.heap.deleted.count h = w.heap.deleted.count h + 1 ∧
      (cleanup_result env r data w).2.heap.live = w.heap.live.filter (fun p => p.1 ≠ h) ∧
      (cleanup_result env r data w).2.heap.deref data = none := by
  cases data with
  | none => simp [Heap.deref] at hlive
  | some h =>
    refine ⟨h, rfl, ?_⟩
    have hh := py_user_code_on_results_heap env 1 r (some h) none none "cleaners"
      (initialize_python w)
    rw [initialize_python_heap] at hh
    rw [cleanup_result_cases] at hret ⊢
    generalize py_user_code_on_results env 1 r (some h) none none "cleaners"
      (initialize_python w) = d at hh hret ⊢
    obtain ⟨o, w1⟩ := d
    simp only at hh
    cases o with
    | none => simp [cleanup_fatal] at hret
    | null => simp [cleanup_fatal] at hret
    | val v =>
      have hb := py_boinctools_on_result_heap env r "continue_children" w1
      simp only at hret ⊢
      generalize py_boinctools_on_result env r "continue_children" w1 = b at hb hret ⊢
      obtain ⟨o2, w2⟩ := b
      simp only at hb hret ⊢
      unfold cleanup_tail at hret ⊢
      cases he : w2.err with
      | none =>
        simp only [he] at hret ⊢
        have hst : st = 0 := by simpa using hret.symm
        refine ⟨Or.inl hst, ?_, ?_, ?_, deref_free_context h w2⟩ <;>
          simp [free_context, delete_paths, hb, hh]
      | some e =>
        simp only [he] at hret ⊢
        have hp := PyErr_Print_heap (printf "boinctools.continue_children failed\n" w2)
        generalize PyErr_Print (printf "boinctools.continue_children failed\n" w2) = q
          at hp hret ⊢
        obtain ⟨c, w3⟩ := q
        cases c with
        | some c => simp at hret
        | none =>
          simp only at hp hret ⊢
          have hst : st = 1 := by simpa using hret.symm
          have hp2 : w3.heap = w.heap := by
            rw [hp]
            simpa [printf, World.log, hb] using hh
          refine ⟨Or.inr hst, ?_, ?_, ?_, deref_free_context h _⟩ <;>
            simp [free_context, delete_paths, hp2]

/-- A returning call on the handle made by `init_result` for the same result. -/
theorem cleanup_result_frees_context_once_witness :
    (init_result env42 wu none world0).2.heap.deref (some 1) = some ["wu_0"] ∧
    (cleanup_result env42 wu (some 1) (init_result env42 wu none world0).2).1 = .returned 0 ∧
    ∃ h, some 1 = some h ∧ ((0 : Int) = 0 ∨ (0 : Int) = 1) ∧
      (cleanup_result env42 wu (some 1) (init_result env42 wu none world0).2).2.heap.deleted =
        (init_result env42 wu none world0).2.heap.deleted ++ [h] ∧
      (cleanup_result env42 wu (some 1)
          (init_result env42 wu none world0).2).2.heap.deleted.count h =
        (init_result env42 wu none world0).2.heap.deleted.count h + 1 ∧
      (cleanup_result env42 wu (some 1) (init_result env42 wu none world0).2).2.heap.live =
        (init_result env42 wu none world0).2.heap.live.filter (fun p => p.1 ≠ h) ∧
      (cleanup_result env42 wu (some 1)
          (init_result env42 wu none world0).2).2.heap.deref (some 1) = none :=
  ⟨by decide, by decide,
   cleanup_result_frees_context_once env42 wu (some 1) (init_result env42 wu none world0).2
     ["wu_0"] 0 (by decide) (by decide)⟩

/-- C6 as stated fails, in three ways.  In a Python 2 build a hook that raises
`SystemExit` with status 0 ends the process with status 0, inside `PyErr_Print` and before
the teardown of line 115, not with status 1.  An exception kind without a `__name__`
attribute makes line 108 read through `NULL`.  In a Python 3 build the name of
`NoSuchProcess` cannot be read by `PyBytes_AsString`, and the exception is fatal. -/
theorem init_result_hook_exception_not_by_name_alone :
    (init_result (envInitRaises 2 (systemExit 0)) wu none world0).1 = .exited 0 ∧
    Event.pyFinalize ∉ (init_result (envInitRaises 2 (systemExit 0)) wu none world0).2.trace ∧
    (init_result (envInitRaises 2 nameless) wu none world0).1 = .crashed ∧
    (init_result (envInitRaises 3 noSuchProcess) wu none world0).1 = .exited 1 := by
  decide

/-- C6, amended: in a Python 2 build, when `init_result` calls the `update_process` hook
and the hook raises an exception `e` that has a `__name__` attribute, the outcome is
decided as follows.  With the name `NoSuchProcess` the exception is swallowed and
`init_result` returns status 0 with `data` set to the handle of the output paths.  With
any other name the diagnostic is printed and `PyErr_Print` is called: if `e` is
`SystemExit` the process ends there with the exit status of `e`, otherwise the interpreter
is torn down and the process ends with exit status 1.  With a `__name__` that is not a
string the process ends likewise with exit status 1, after the teardown. -/
theorem init_result_hook_exception_by_name (env : Env) (result : RESULT) (data : Ptr)
    (w : World) (d : PyDict) (f : Callable) (e : PyExc)
    (hpy : env.pyMajor < 3)
    (hmain : env.mainModule = true) (hdict : env.mainDict = true)
    (hmod : env.boinctools = some d)
    (hfn : PyDict_GetItemString d "update_process" = some (.callable f))
    (hraise : f [proxy_of result (env.outputPaths result)] = .raises e) :
    (e.nameAttr = some (.str "NoSuchProcess") →
      (init_result env result data w).1 = .returned (0, some w.heap.next) ∧
      (init_result env result data w).2.heap.deref (some w.heap.next)
        = some (env.outputPaths result) ∧
      (init_result env result data w).2.pythonUp = true) ∧
    (∀ n, e.nameAttr = some (.str n) → n ≠ "NoSuchProcess" → e.exitCode = none →
      (init_result env result data w).1 = .exited 1 ∧
      (init_result env result data w).2.pythonUp = false ∧
      (init_result env result data w).2.trace = (init_head env result w).trace ++
        [.stdout "Calling update_process\n",
         .invoke "update_process" [proxy_of result (env.outputPaths result)],
         .stdout ("Python Exception (" ++ n ++ ") happened\n"),
         .errPrint e, .pyFinalize]) ∧
    (∀ n c, e.nameAttr = some (.str n) → n ≠ "NoSuchProcess" → e.exitCode = some c →
      (init_result env result data w).1 = .exited c ∧
      (init_result env result data w).2.trace = (init_head env result w).trace ++
        [.stdout "Calling update_process\n",
         .invoke "update_process" [proxy_of result (env.outputPaths result)],
         .stdout ("Python Exception (" ++ n ++ ") happened\n"),
         .processExit c]) ∧
    (e.nameAttr = some .other →
      (init_result env result data w).1 = .exited 1 ∧
      (init_result env result data w).2.pythonUp = false ∧
      (init_result env result data w).2.trace = (init_head env result w).trace ++
        [.stdout "Calling update_process\n",
         .invoke "update_process" [proxy_of result (env.outputPaths result)],
         .stdout "Python Exception (NULL) happened\n",
         .errPrint typeError, .pyFinalize]) := by
  have hd := init_head_deref env result w
  have hu := init_head_up env result w
  rw [init_result_hook_raises env result data w d f e hmain hdict hmod hfn hraise]
  unfold init_after_call
  simp only
  refine ⟨?_, ?_, ?_, ?_⟩
  · intro hn
    simp only [hn, as_c_string_py2 _ _ _ hpy]
    simp [print_hook_result, hd, hu]
  · intro n hn hne hx
    simp only [hn, as_c_string_py2 _ _ _ hpy]
    simp [hne, init_fatal, PyErr_Print, printf, World.log, hx, finalize_python]
  · intro n c hn hne hx
    simp only [hn, as_c_string_py2 _ _ _ hpy]
    simp [hne, init_fatal, PyErr_Print, printf, World.log, hx]
  · intro hn
    simp only [hn, as_c_string_other]
    simp [init_fatal, PyErr_Print, printf, World.log, typeError, finalize_python]

/-- The hook of `envSwallow` raises `NoSuchProcess` in a Python 2 build: `init_result`
returns status 0. -/
theorem init_result_hook_exception_by_name_witness :
    envSwallow.pyMajor < 3 ∧
    (fun _ => CallOutcome.raises noSuchProcess : Callable)
        [proxy_of wu (envSwallow.outputPaths wu)] = .raises noSuchProcess ∧
    noSuchProcess.nameAttr = some (.str "NoSuchProcess") ∧
    (init_result envSwallow wu none world0).1 = .returned (0, some 1) :=
  ⟨by decide, rfl, rfl,
   ((init_result_hook_exception_by_name envSwallow wu none world0
      [("update_process", .callable (fun _ => .raises noSuchProcess)),
       ("continue_children", .callable (fun _ => .returnsNone))]
      (fun _ => .raises noSuchProcess) noSuchProcess (by decide) rfl rfl rfl rfl rfl).1 rfl).1⟩

/-- C7 as stated fails: in a runtime without `__main__`, `init_result` returns (with
status `ERR_OPENDIR`) and `data` is still `NULL`, not a list of strings. -/
theorem init_result_may_return_without_context :
    ¬ ∀ (env : Env) (result : RESULT) (data : Ptr) (w : World) (st : Int) (p : Ptr),
        (init_result env result data w).1 = .returned (st, p) →
        ∃ xs, (init_result env result data w).2.heap.deref p = some xs := by
  intro h
  have h1 := h envNoMain wu none world0 ERR_OPENDIR none (by decide)
  simp [Heap.deref] at h1

/-- C7, amended: whenever `init_result` returns status 0, `data` is the handle of a live
list of strings holding the resolved output-file paths of the result, whatever the
`update_process` hook is or did; and nothing `init_result` does depends on the
registries at script top level ("validators", "cleaners"). -/
theorem init_result_status_zero_sets_context (env : Env) (result : RESULT) (data : Ptr)
    (w : World) (p : Ptr)
    (h0 : (init_result env result data w).1 = .returned (0, p)) :
    p = some w.heap.next ∧
    (init_result env result data w).2.heap.deref p = some (env.outputPaths result) ∧
    ∀ regs, init_result { env with registries := regs } result data w =
      init_result env result data w := by
  have hd := init_head_deref env result w
  have key : p = some w.heap.next ∧
      (init_result env result data w).2.heap = (init_head env result w).heap := by
    by_cases hmain : env.mainModule = true
    · by_cases hdict : env.mainDict = true
      · rw [init_result_hook env result data w hmain hdict] at h0 ⊢
        refine ⟨?_, init_hook_stage_heap _ _ _ _⟩
        rcases init_hook_stage_outcome env (init_proxy env result w) w.heap.next
          (init_head env result w) with h | h | h
        · rw [h] at h0
          simpa using h0.symm
        · obtain ⟨c, h⟩ := h
          rw [h] at h0
          simp at h0
        · rw [h] at h0
          simp at h0
      · have hf := (init_result_early_return env result data w
          (Or.inr (by simpa using hdict)))
        rw [hf] at h0
        simp [ERR_OPENDIR] at h0
    · have hf := (init_result_early_return env result data w
        (Or.inl (by simpa using hmain)))
      rw [hf] at h0
      simp [ERR_OPENDIR] at h0
  refine ⟨key.1, ?_, fun regs => rfl⟩
  rw [key.1, key.2]
  exact hd

/-- With both hooks present and quiet, `init_result` returns status 0 and handle 1. -/
theorem init_result_status_zero_sets_context_witness :
    (init_result env42 wu none world0).1 = .returned (0, some 1) ∧
    (init_result env42 wu none world0).2.heap.deref (some 1) = some ["wu_0"] :=
  ⟨by decide,
   (init_result_status_zero_sets_context env42 wu none world0 (some 1) (by decide)).2.1⟩

/-- C8 as stated fails: in a runtime without `__main__` and without the auxiliary module,
`init_result` returns the non-zero status `ERR_OPENDIR` and `data` is still `NULL`; and
where the import fails after `__main__` was obtained, the exception of the failed import
is left pending, so the runtime is not left as it was. -/
theorem init_result_absent_hook_may_return_ERR_OPENDIR :
    envNoMainNoTools.boinctools = none ∧
    (init_result envNoMainNoTools wu none world0).1 = .returned (ERR_OPENDIR, none) ∧
    ERR_OPENDIR ≠ 0 ∧
    world0.err = none ∧
    (init_result envNoTools wu none world0).2.err = some importError :=
  ⟨rfl, by decide, by decide, rfl, by decide⟩

/-- C8, amended: when the main module and its dict were obtained and the hook is absent,
because `boinctools` cannot be imported, or has no `update_process` entry, or the entry is
not invocable, then `init_result` calls no script function, leaves the interpreter up,
and returns status 0 with `data` set to the handle of the list of output paths.  In the
two cases where the module is imported the world is the one in which the hook resolution
was reached; after a failed import it differs from that world only in the error
indicator, which holds the exception of the import. -/
theorem init_result_absent_hook_returns_zero (env : Env) (result : RESULT) (data : Ptr)
    (w : World)
    (hmain : env.mainModule = true) (hdict : env.mainDict = true)
    (habs : env.boinctools = none ∨
      ∃ d, env.boinctools = some d ∧
        (PyDict_GetItemString d "update_process" = none ∨
         PyDict_GetItemString d "update_process" = some .inert)) :
    (init_result env result data w).1 = .returned (0, some w.heap.next) ∧
    (init_result env result data w).2.heap.deref (some w.heap.next)
      = some (env.outputPaths result) ∧
    (init_result env result data w).2.invocations = w.invocations ∧
    (init_result env result data w).2.pythonUp = true ∧
    (env.boinctools ≠ none →
      (init_result env result data w).2 = init_head env result w ∧
      (init_result env result data w).2.err = w.err) ∧
    (env.boinctools = none →
      (init_result env result data w).2 =
        { init_head env result w with err := some env.importError }) := by
  have hd := init_head_deref env result w
  have hi := init_head_invocations env result w
  have hu := init_head_up env result w
  have he := init_head_err env result w
  rw [init_result_hook env result data w hmain hdict]
  unfold init_hook_stage
  rcases habs with h | ⟨d, h, h2 | h2⟩
  · simp only [h]
    refine ⟨trivial, hd, hi, hu, ?_, ?_⟩ <;> simp
  · simp only [h, h2]
    refine ⟨trivial, hd, hi, hu, ?_, ?_⟩ <;> simp [he]
  · simp only [h, h2]
    refine ⟨trivial, hd, hi, hu, ?_, ?_⟩ <;> simp [he]

/-- The deployment `envNoTools` has no auxiliary module: status 0, handle 1. -/
theorem init_result_absent_hook_returns_zero_witness :
    envNoTools.mainModule = true ∧ envNoTools.mainDict = true ∧ envNoTools.boinctools = none ∧
    (init_result envNoTools wu none world0).1 = .returned (0, some 1) ∧
    (init_result envNoTools wu none world0).2.invocations = [] :=
  ⟨rfl, rfl, rfl,
   (init_result_absent_hook_returns_zero envNoTools wu none world0 rfl rfl (Or.inl rfl)).1,
   (init_result_absent_hook_returns_zero envNoTools wu none world0 rfl rfl (Or.inl rfl)).2.2.1⟩

/-- C9: when the top-level module `__main__` or its dict cannot be obtained,
`init_result` returns the status `ERR_OPENDIR`, which is not 0, and leaves `data` as it
was on entry; no result is marshalled, no script function is called, the output paths
are not resolved, and the list allocated on entry stays on the heap, empty and never
deleted, without the host being given its handle. -/
theorem init_result_no_module_returns_ERR_OPENDIR (env : Env) (result : RESULT) (data : Ptr)
    (w : World) (hfail : env.mainModule = false ∨ env.mainDict = false) :
    (init_result env result data w).1 = .returned (ERR_OPENDIR, data) ∧
    ERR_OPENDIR ≠ 0 ∧
    (init_result env result data w).2.marshals = w.marshals ∧
    (init_result env result data w).2.globals = w.globals ∧
    (init_result env result data w).2.invocations = w.invocations ∧
    (init_result env result data w).2.heap =
      { next := w.heap.next + 1, live := (w.heap.next, []) :: w.heap.live,
        deleted := w.heap.deleted } := by
  have hi := initialize_python_invocations (new_paths w).2
  have hm := initialize_python_marshals (new_paths w).2
  have hh := initialize_python_heap (new_paths w).2
  have hg : (initialize_python (new_paths w).2).globals = w.globals := by
    unfold initialize_python World.log
    split <;> rfl
  unfold World.invocations at hi ⊢
  unfold World.marshals at hm ⊢
  by_cases hmain : env.mainModule = false
  · rw [init_result_no_main env result data w hmain]
    unfold report_errno fprintf_stderr
    split <;>
      simp [World.log, new_paths, List.filter_append, Event.isInvoke, Event.isMarshal,
        ERR_OPENDIR] at hi hm hh hg ⊢ <;>
      exact ⟨hm, hg, hi, hh⟩
  · have hmain2 : env.mainModule = true := by simpa using hmain
    have hdict : env.mainDict = false := by
      rcases hfail with h | h
      · exact absurd h hmain
      · exact h
    rw [init_result_no_dict env result data w hmain2 hdict]
    unfold report_errno fprintf_stderr init_boinc_result
    split <;>
      simp [World.log, new_paths, List.filter_append, Event.isInvoke, Event.isMarshal,
        ERR_OPENDIR] at hi hm hh hg ⊢ <;>
      exact ⟨hm, hg, hi, hh⟩

/-- The runtime of `envNoMain` has no `__main__`: status `ERR_OPENDIR`, handle still `NULL`. -/
theorem init_result_no_module_returns_ERR_OPENDIR_witness :
    (envNoMain.mainModule = false ∨ envNoMain.mainDict = false) ∧
    (init_result envNoMain wu none world0).1 = .returned (ERR_OPENDIR, none) :=
  ⟨Or.inl rfl, (init_result_no_module_returns_ERR_OPENDIR envNoMain wu none world0 (Or.inl rfl)).1⟩

end PyValidator
